import Mathlib

/-!
Verification of the retrieval / context-assembly core of the code-sense RAG
repository. Python sources are shallowly embedded: pure functions become Lean
functions, the mutable conversation object becomes explicit state passing,
Python exceptions become `Except PyError`, CPython floats become `ℚ`, and
POSIX paths become component lists. Wall-clock durations are modelled by a
fixed dummy value, and `print` side effects are dropped.
-/

set_option maxRecDepth 8000

/-- A raised Python exception, as observable at a component boundary. -/
inductive PyError where
  | nameError (ident : String)
  | attributeError (cls attr : String)
  | typeError (msg : String)
deriving DecidableEq, Repr

/-! ## Character-list string helpers (kernel-computable counterparts of the
Python `str` operations used by the embedded code). -/

/-- Length of a string in characters (Python `len`). -/
def strLen (s : String) : Nat := s.data.length

/-- First `n` characters (Python `s[:n]`). -/
def strTake (s : String) (n : Nat) : String := String.mk (s.data.take n)

/-- All characters from index `n` (Python `s[n:]`). -/
def strDrop (s : String) (n : Nat) : String := String.mk (s.data.drop n)

/-- Split a character list at every occurrence of `c` (Python `str.split(c)`). -/
def splitOnChar (c : Char) : List Char → List (List Char)
  | [] => [[]]
  | x :: xs =>
    let r := splitOnChar c xs
    if x = c then [] :: r
    else
      match r with
      | [] => [[x]]
      | y :: ys => (x :: y) :: ys

/-- String wrapper for `splitOnChar`. -/
def strSplitOn (s : String) (c : Char) : List String :=
  (splitOnChar c s.data).map String.mk

/-- Python whitespace test for `str.strip`. -/
def isSpaceChar (c : Char) : Bool :=
  c = ' ' || c = '\t' || c = '\n' || c = '\r'

/-- Python `str.strip()` (ASCII whitespace). -/
def strStrip (s : String) : String :=
  String.mk (((s.data.dropWhile isSpaceChar).reverse.dropWhile isSpaceChar).reverse)

/-- Occurrence test for a character sequence inside another (Python `in`). -/
def seqOccurs (pat : List Char) : List Char → Bool
  | [] => pat.isEmpty
  | c :: rest => pat.isPrefixOf (c :: rest) || seqOccurs pat rest

/-- Python `sub in s` on strings. -/
def strHasSub (s pat : String) : Bool := seqOccurs pat.data s.data

/-- Concatenation with a separator, modelling the Python join method. -/
def joinWith (sep : String) : List String → String
  | [] => ""
  | [x] => x
  | x :: xs => x ++ sep ++ joinWith sep xs

/-- Python `s[-n:]` (last `n` elements) used to model list slicing. -/
def lastN (n : Nat) (l : List α) : List α := l.drop (l.length - n)

/-! ## POSIX path model (`pathlib` without symlinks).

A path is an absolute flag plus its components; `pathlib.PurePosixPath`
normalizes away empty and `"."` components at construction and keeps `".."`.
`Path.resolve()` is modelled as lexical normalization against a canonical
current working directory `cwd` (symbolic links are not modelled). -/

structure PyPath where
  absFlag : Bool
  comps : List String
deriving DecidableEq, Repr

/-- Python `os.path.isabs` on POSIX. -/
def strIsAbs (s : String) : Bool :=
  match s.data with
  | [] => false
  | c :: _ => c = '/'

/-- Python `str.lstrip('/')`. -/
def lstripSlashes : List Char → List Char
  | '/' :: rest => lstripSlashes rest
  | l => l

/-- Models `pathlib.Path(s)`: components with `""` and `"."` dropped. -/
def parsePath (s : String) : PyPath :=
  { absFlag := strIsAbs s,
    comps := ((splitOnChar '/' s.data).map String.mk).filter
      (fun c => decide (c ≠ "" ∧ c ≠ ".")) }

/-- Models the slash operator of `pathlib` for a relative right operand; an
absolute right operand replaces the left one. -/
def joinPath (a b : PyPath) : PyPath :=
  if b.absFlag then b else { absFlag := a.absFlag, comps := a.comps ++ b.comps }

/-- Lexical `".."` elimination used by `Path.resolve()` (at the root, `".."`
stays at the root). -/
def normalizeParts (acc : List String) : List String → List String
  | [] => acc
  | c :: rest =>
    if c = ".." then normalizeParts acc.dropLast rest
    else normalizeParts (acc ++ [c]) rest

/-- Models `Path.resolve()` without symlinks: absolute canonical component list. -/
def pathResolve (cwd : List String) (p : PyPath) : List String :=
  normalizeParts [] (if p.absFlag then p.comps else cwd ++ p.comps)

/-- Models `a.relative_to(b)` on unresolved paths: succeeds exactly when the
parts of `b` are a prefix of the parts of `a` (else Python raises
`ValueError`). -/
def relativeToParts (a b : PyPath) : Option (List String) :=
  if a.absFlag = b.absFlag ∧ b.comps.isPrefixOf a.comps then
    some (a.comps.drop b.comps.length)
  else none

/-- Rendering of a `PyPath` (Python `str(Path)`). -/
def pathToString (p : PyPath) : String :=
  match p.comps with
  | [] => if p.absFlag then "/" else "."
  | l => (if p.absFlag then "/" else "") ++ joinWith "/" l

/-- Models `pathlib.PurePath.suffix` of a file name. -/
def pySuffix (name : String) : String :=
  match strSplitOn name '.' with
  | [] => ""
  | [_] => ""
  | "" :: [_] => ""
  | ps => "." ++ (ps.getLastD "")

/-! ## File system model: a finite map from canonical absolute component
lists to content and stat data. `st_size` and `st_mtime` are carried as
independent fields of the entry. -/

structure FileEntry where
  parts : List String
  content : String
  size_bytes : Nat
  mtime_iso : String
deriving DecidableEq, Repr

/-- Lookup of a canonical absolute path in the modelled file system. -/
def fsLookup (fs : List FileEntry) (p : List String) : Option FileEntry :=
  fs.find? (fun e => e.parts = p)

/-! ## src/shared/tool_agent.py -/

/-- Payload of a successful `CodeRetrievalTool.execute` call: the `result`
dict built at src/shared/tool_agent.py lines 64-71. -/
structure ToolPayload where
  file_path : String
  relative_path : String
  content : String
  size_bytes : Nat
  last_modified : String
  file_extension : String
deriving DecidableEq, Repr

/-- Embeds the `ToolResult` dataclass (src/shared/tool_agent.py lines 8-15). The
`result` payload is `Any` in the source; every payload actually produced is
the dict of `CodeRetrievalTool.execute`, so it is typed as `Option
ToolPayload` here. The modelled execution duration is a rational. -/
structure ToolResult where
  tool_name : String
  success : Bool
  result : Option ToolPayload
  error : Option String := none
  execution_time : Option ℚ := none
deriving DecidableEq, Repr

/-- Tool name registered by `CodeRetrievalTool.__init__`. -/
def codeRetrievalToolName : String := "get_code_by_filepath"

/-- The full path computed at src/shared/tool_agent.py lines 31-35: a
relative `file_path` has leading slashes stripped and is joined onto the
project root, an absolute one is taken as is. -/
def CodeRetrievalTool.fullPathOf (project_root file_path : String) : PyPath :=
  if strIsAbs file_path then parsePath file_path
  else joinPath (parsePath project_root)
    (parsePath (String.mk (lstripSlashes file_path.data)))

/-- Embeds `CodeRetrievalTool.execute` (src/shared/tool_agent.py lines 26-90).
`datetime.now()` durations are modelled as `0`; the `ValueError` that
`full_path.relative_to(self.project_root)` (line 66) can raise on the
unresolved paths is caught by the enclosing `except` and surfaces as a
failure result, exactly as in the source. -/
def CodeRetrievalTool.execute (fs : List FileEntry) (cwd : List String)
    (project_root : String) (file_path : String) : ToolResult :=
  let rootP := parsePath project_root
  let full_path : PyPath := CodeRetrievalTool.fullPathOf project_root file_path
  if (pathResolve cwd rootP).isPrefixOf (pathResolve cwd full_path) = false then
    { tool_name := codeRetrievalToolName, success := false, result := none,
      error := some ("Path " ++ file_path ++ " is outside project root for security") }
  else
    match fsLookup fs (pathResolve cwd full_path) with
    | none =>
      { tool_name := codeRetrievalToolName, success := false, result := none,
        error := some ("File not found: " ++ file_path) }
    | some entry =>
      match relativeToParts full_path rootP with
      | some relParts =>
        { tool_name := codeRetrievalToolName, success := true,
          result := some
            { file_path := pathToString full_path,
              relative_path := pathToString { absFlag := false, comps := relParts },
              content := entry.content,
              size_bytes := entry.size_bytes,
              last_modified := entry.mtime_iso,
              file_extension := pySuffix (full_path.comps.getLastD "") },
          error := none, execution_time := some 0 }
      | none =>
        { tool_name := codeRetrievalToolName, success := false, result := none,
          error := some (pathToString full_path ++ " is not in the subpath of "
            ++ project_root),
          execution_time := some 0 }

/-- Keyword-argument lookup for the `**kwargs` call model. -/
def kwLookup : List (String × String) → String → Option String
  | [], _ => none
  | (k, v) :: rest, key => if k = key then some v else kwLookup rest key

/-- Embeds `ToolAgent.execute_tool` (src/shared/tool_agent.py lines
128-138). The registry holds the single tool `get_code_by_filepath`. A call
whose keyword arguments fail to bind to `execute(self, file_path)` raises
`TypeError` at the call site (line 138), outside the `try`/`except` inside
`execute`, so it propagates to the caller; this is modelled by
`Except.error`. -/
def ToolAgent.execute_tool (fs : List FileEntry) (cwd : List String)
    (project_root : String) (tool_name : String)
    (kwargs : List (String × String)) : Except PyError ToolResult :=
  if tool_name ≠ codeRetrievalToolName then
    .ok { tool_name := tool_name, success := false, result := none,
          error := some ("Unknown tool: " ++ tool_name) }
  else if (kwargs.filter (fun kv => kv.1 ≠ "file_path")) ≠ [] then
    .error (.typeError "execute() got an unexpected keyword argument")
  else
    match kwLookup kwargs "file_path" with
    | none => .error (.typeError
        "execute() missing 1 required positional argument: file_path")
    | some fp => .ok (CodeRetrievalTool.execute fs cwd project_root fp)

/-! ## Numeric rendering helpers.

CPython floats are modelled as rationals. `format4` models `"{:.4f}"`
(rounding half-up instead of the half-even of CPython — the difference is
not exercised here), `floatRepr` models the f-string rendering of a float
whose value is exactly representable in decimal. -/

/-- Fixed-point rendering with 4 decimals, modelling `"{:.4f}"` (rounding
half-up instead of the half-even of CPython; the difference is not exercised).
Works on the numerator/denominator directly so that it evaluates in the
kernel. -/
def format4 (q : ℚ) : String :=
  let n : Nat := q.num.natAbs
  let d : Nat := q.den
  let v : Nat := (n * 20000 + d) / (2 * d)
  let bs := toString (v % 10000)
  (if q.num < 0 && v != 0 then "-" else "") ++ toString (v / 10000) ++ "."
    ++ String.mk (List.replicate (4 - bs.length) '0') ++ bs

/-- Decimal digits of the fraction `num / den ∈ [0,1)`, up to 17 places. -/
def fracDigits : Nat → Nat → Nat → List Char
  | 0, _, _ => []
  | fuel + 1, num, den =>
    if num = 0 then []
    else Char.ofNat (48 + num * 10 / den) :: fracDigits fuel (num * 10 % den) den

/-- Rendering of a decimal-representable float, modelling `f"{x}"`. -/
def floatRepr (q : ℚ) : String :=
  let n : Nat := q.num.natAbs
  let d : Nat := q.den
  let ds := fracDigits 17 (n % d) d
  (if q.num < 0 then "-" else "") ++ toString (n / d) ++ "."
    ++ (if ds.isEmpty then "0" else String.mk ds)

/-- Models `numpy.mean` over a nonempty list of rationals. -/
def ratMean (l : List ℚ) : ℚ := l.sum / l.length

/-! ## src/vectorization/document_utils.py -/

/-- One row of the classification CSV (`df.iterrows()`), with every textual
cell a string and the confidence cell a number. `pandas` NaN cells are not
modelled: the CSV of this repository is produced by the classification pipeline,
which always writes every column. -/
structure CsvRow where
  file_path : String
  project_name : String
  file_type : String
  business_purpose : String
  business_rules : String
  business_triggers : String
  business_data : String
  integration_points : String
  business_workflow : String
  technical_pattern : String
  llm_provider : String
  classification_confidence : ℚ
deriving DecidableEq, Repr

/-- The metadata record stored per document by
`prepare_documents_for_embedding` (src/vectorization/document_utils.py
lines 25-39): list-valued CSV cells are passed through `str(...)`, so they
are stored as strings, and `classification_confidence` as
`float(row.get(..., 0.0))`. -/
structure DocMetadata where
  file_path : String
  project_name : String
  file_type : String
  business_purpose : String
  business_rules : String
  business_triggers : String
  business_data : String
  integration_points : String
  business_workflow : String
  technical_pattern : String
  llm_provider : String
  classification_confidence : ℚ
  created_at : String
deriving DecidableEq, Repr

/-- Embeds `_parse_list_field` (src/vectorization/document_utils.py lines 69-77):
split a pipe-separated cell, strip items, keep the non-empty ones. -/
def parse_list_field (s : String) : List String :=
  if s = "" then []
  else ((strSplitOn s '|').map strStrip).filter (fun x => x ≠ "")

/-- Embeds `_create_document_text` (src/vectorization/document_utils.py lines
79-121). -/
def create_document_text (row : CsvRow) : String :=
  let text_parts : List String :=
    ["Business Purpose: " ++ row.business_purpose,
     "Business Workflow: " ++ row.business_workflow]
    ++ (let l := parse_list_field row.business_rules
        if l = [] then [] else ["Business Rules: " ++ joinWith ", " l])
    ++ (let l := parse_list_field row.business_triggers
        if l = [] then [] else ["Business Triggers: " ++ joinWith ", " l])
    ++ (let l := parse_list_field row.business_data
        if l = [] then [] else ["Business Data: " ++ joinWith ", " l])
    ++ (let l := parse_list_field row.integration_points
        if l = [] then [] else ["Integration Points: " ++ joinWith ", " l])
    ++ ["Technical Pattern: " ++ row.technical_pattern,
        "File: " ++ row.file_path,
        "Project: " ++ row.project_name]
  joinWith " | " text_parts

/-- One record of the list built by `prepare_documents_for_embedding`. -/
structure DocRecord where
  id : String
  text : String
  metadata : DocMetadata
deriving DecidableEq, Repr

/-- Embeds `prepare_documents_for_embedding` (src/vectorization/document_utils.py
lines 8-45); `uuid.uuid4()` is modelled by the injected `ids` stream and
`datetime.now().isoformat()` by `now`. -/
def prepare_documents_for_embedding (rows : List CsvRow) (ids : Nat → String)
    (now : String) : List DocRecord :=
  rows.enum.map fun p =>
    { id := ids p.1,
      text := create_document_text p.2,
      metadata :=
        { file_path := p.2.file_path,
          project_name := p.2.project_name,
          file_type := p.2.file_type,
          business_purpose := p.2.business_purpose,
          business_rules := p.2.business_rules,
          business_triggers := p.2.business_triggers,
          business_data := p.2.business_data,
          integration_points := p.2.integration_points,
          business_workflow := p.2.business_workflow,
          technical_pattern := p.2.technical_pattern,
          llm_provider := p.2.llm_provider,
          classification_confidence := p.2.classification_confidence,
          created_at := now } }

/-! ## src/vectorization/semantic_match.py -/

/-- The per-query slices of a `chromadb` query result: the first row of its
ids, documents, metadatas, and distances. -/
structure ChromaResult where
  ids : List String
  documents : List String
  metadatas : List DocMetadata
  distances : List ℚ
deriving DecidableEq, Repr

/-- Python `zip` over four parallel lists (truncates at the shortest). -/
def zip4 : List α → List β → List γ → List δ → List (α × β × γ × δ)
  | a :: as_, b :: bs, c :: cs, d :: ds => (a, b, c, d) :: zip4 as_ bs cs ds
  | _, _, _, _ => []

/-- Summary of one semantic search, as built by
`VectorCollection.semantic_search` (src/vectorization/vector_collection.py
lines 70-78). -/
structure SearchSummary where
  total_results : Nat
  avg_distance : ℚ
  files_found : List String
deriving DecidableEq, Repr

/-- Embeds the `SemanticMatch` dataclass (src/vectorization/semantic_match.py lines
6-11). -/
structure SemanticMatch where
  query : String
  results : ChromaResult
  filters : List (String × String)
  summary : SearchSummary
deriving DecidableEq, Repr

/-- Embeds `SemanticMatch.build_business_context_summary`
(src/vectorization/semantic_match.py lines 13-48). The `print` calls are
side effects and are dropped. Note that the business-rules and
integration-points metadata hold the pipe-separated *strings* stored by
`prepare_documents_for_embedding`, so the `[:3]` slice takes characters and
the comma join joins those characters. -/
def SemanticMatch.build_business_context_summary (m : SemanticMatch) : String :=
  let rows := zip4 m.results.ids m.results.documents m.results.metadatas
    m.results.distances
  let parts := rows.enum.flatMap fun p =>
    let md := p.2.2.2.1
    let dist := p.2.2.2.2
    ["\n--- Relevant File " ++ toString p.1 ++ ": " ++ md.file_path ++ " ---",
     "Project Name: " ++ md.project_name,
     "File Type: " ++ md.file_type,
     "Business Purpose: " ++ md.business_purpose,
     "Technical Pattern: " ++ md.technical_pattern,
     "Business Workflow: " ++ md.business_workflow,
     "Business Triggers: " ++ md.business_triggers,
     "Business Data: " ++ md.business_data]
    ++ (if md.business_rules ≠ "" then
          ["Business Rules: "
            ++ joinWith ", " ((md.business_rules.data.take 3).map
                (fun c => String.mk [c]))]
        else [])
    ++ (if md.integration_points ≠ "" then
          ["Integration Points: "
            ++ joinWith ", " ((md.integration_points.data.take 3).map
                (fun c => String.mk [c]))]
        else [])
    ++ ["Semantic Distance: " ++ format4 dist,
        "Confidence: " ++ floatRepr md.classification_confidence,
        ""]
  joinWith "\n" parts

/-! ## src/rag/rag.py and src/vectorization/vector_collection.py -/

/-- Embeds the `RagQueryResult` dataclass (src/rag/rag.py lines 9-16). The source
field `matches` is spelled `matched` here because `matches` is reserved
syntax in Lean. -/
structure RagQueryResult where
  timestamp : String
  matched : SemanticMatch
  user_query : String
deriving DecidableEq, Repr

/-- Embeds `RagQueryResult.get_business_context` (src/rag/rag.py lines 15-16). -/
def RagQueryResult.get_business_context (r : RagQueryResult) : String :=
  r.matched.build_business_context_summary

/-- The methods `VectorCollection`
(src/vectorization/vector_collection.py) actually defines. -/
def vectorCollectionMethods : List String :=
  ["__init__", "add_documents_to_collection", "semantic_search",
   "filtered_retrieval", "get_collection_stats_v1", "get_collection_stats_v2"]

/-- One document of the result list of `VectorCollection.filtered_retrieval`
(src/vectorization/vector_collection.py lines 123-131). -/
structure RetrievedDoc where
  id : String
  file_path : String
  project_name : String
  file_type : String
  business_purpose : String
  distance : ℚ
  document : String
deriving DecidableEq, Repr

/-- Summary dict of `filtered_retrieval` (either branch). -/
structure RetrievalSummary where
  total_results : Nat
  message : Option String := none
  avg_distance : Option ℚ := none
  files_found : Option (List String) := none
deriving DecidableEq, Repr

/-- Return dict of `VectorCollection.filtered_retrieval`. -/
structure FilteredRetrievalResult where
  query : String
  filters : List (String × String)
  results : List RetrievedDoc
  summary : RetrievalSummary
deriving DecidableEq, Repr

/-- Embeds `VectorCollection.filtered_retrieval`
(src/vectorization/vector_collection.py lines 84-152): the underlying
`chromadb` query outcome is injected as `queryRes`; when the filter
excludes every document the empty-marker dict of lines 100-106 is
returned. The `except` branch of lines 144-152 fires only when the
underlying index raises, which is not modelled. -/
def VectorCollection.filtered_retrieval (queryRes : ChromaResult)
    (query : String) (filters : List (String × String)) :
    FilteredRetrievalResult :=
  if queryRes.ids = [] then
    { query := query, filters := filters, results := [],
      summary := { total_results := 0,
                   message := some "No results found with filters" } }
  else
    let docs := (zip4 queryRes.ids queryRes.documents queryRes.metadatas
        queryRes.distances).map fun p =>
      { id := p.1, file_path := p.2.2.1.file_path,
        project_name := p.2.2.1.project_name,
        file_type := p.2.2.1.file_type,
        business_purpose := p.2.2.1.business_purpose,
        distance := p.2.2.2, document := p.2.1 }
    { query := query, filters := filters, results := docs,
      summary := { total_results := queryRes.ids.length,
                   avg_distance := some (ratMean queryRes.distances),
                   files_found := some (docs.map (fun d => d.file_path)) } }

/-- Embeds `FilteredContentRag.retrieve_relevant_context` (src/rag/rag.py
lines 41-43). Its body is the single statement
`query_result = self._vector_collection.filtered_semantic_search(user_request, self.filters, n_results=3)`
followed by wrapping into a `RagQueryResult`. `VectorCollection` defines no
attribute named `filtered_semantic_search` (its method set is
`vectorCollectionMethods`; the filtered search it does define is called
`filtered_retrieval`), so Python attribute lookup raises `AttributeError`
on the first line, before any search or wrapping happens. -/
def FilteredContentRag.retrieve_relevant_context
    (_filters : List (String × String)) (_user_request : String) :
    Except PyError RagQueryResult :=
  .error (.attributeError "VectorCollection" "filtered_semantic_search")

/-! ## src/llms/utils/validation.py and
src/classification/classification_result.py -/

/-- A Python value as handled by the validation helpers. -/
inductive PyVal where
  | num (q : ℚ)
  | str (s : String)
  | vlist (l : List PyVal)

/-- A Python dict with string keys, in insertion order. -/
def PyDict := List (String × PyVal)

/-- Dict read access (`d.get(k)` / `k in d`). -/
def lookupK : List (String × PyVal) → String → Option PyVal
  | [], _ => none
  | (k, v) :: rest, key => if k = key then some v else lookupK rest key

/-- Dict write access (`d[k] = v`), keeping insertion order. -/
def setK : List (String × PyVal) → String → PyVal → List (String × PyVal)
  | [], key, v => [(key, v)]
  | (k, w) :: rest, key, v =>
    if k = key then (key, v) :: rest else (k, w) :: setK rest key v

/-- Python `str.endswith`. -/
def strEndsWith (s suf : String) : Bool := suf.data.isSuffixOf s.data

/-- Python `str()` of a value (list rendering is not needed here). -/
def pyStr : PyVal → String
  | .str s => s
  | .num q => floatRepr q
  | .vlist _ => "[...]"

/-- The `required_fields` list of `get_validated_answer`
(src/llms/utils/validation.py lines 6-9). -/
def requiredImplFields : List String :=
  ["suggested_service", "suggested_files", "implementation_steps",
   "business_rationale", "integration_points", "code_examples",
   "confidence_score"]

/-- The default filled in for a missing required field
(src/llms/utils/validation.py lines 13-15). -/
def missingFieldDefault (field : String) : PyVal :=
  if strEndsWith field "s" ∧ field ≠ "confidence_score" then .vlist []
  else if field ≠ "confidence_score" then .str "Unknown"
  else .num 0

/-- Embeds `get_validated_answer` (src/llms/utils/validation.py lines 4-24):
fill missing required fields, then clamp a numeric `confidence_score` to
`[0,1]` and replace a non-numeric one by `0.0`. -/
def get_validated_answer (implementation : List (String × PyVal)) :
    List (String × PyVal) :=
  let d := requiredImplFields.foldl
    (fun d f =>
      match lookupK d f with
      | some _ => d
      | none => setK d f (missingFieldDefault f)) implementation
  match (lookupK d "confidence_score").getD (.num 0) with
  | .num q => setK d "confidence_score" (.num (max 0 (min 1 q)))
  | _ => setK d "confidence_score" (.num 0)

/-- Embeds `_ensure_list` (src/classification/classification_result.py lines
7-18). -/
def ensure_list : PyVal → List String
  | .vlist l => l.map pyStr
  | .str v =>
    if strHasSub v "," then (strSplitOn v ',').map strStrip
    else if v ≠ "" then [v] else []
  | _ => []

/-- Python `float(x)`; conversion of strings (which can succeed or raise in
CPython) is not modelled, because every confidence reaching
`normalize_classification_response` in this repository is numeric. -/
def pyFloat : PyVal → Except PyError ℚ
  | .num q => .ok q
  | _ => .error (.typeError "float() argument conversion not modelled")

/-- Embeds `ClassificationResult.normalize_classification_response`
(src/classification/classification_result.py lines 85-102): rebuild the
dict with stringified/listified fields, then clamp the confidence to
`[0,1]`. -/
def normalize_classification_response (classification : List (String × PyVal)) :
    Except PyError (List (String × PyVal)) :=
  match pyFloat ((lookupK classification "confidence").getD (.num (1 / 2))) with
  | .error e => .error e
  | .ok q =>
    .ok [("business_purpose",
            .str (pyStr ((lookupK classification "business_purpose").getD
              (.str "Unknown")))),
         ("business_rules",
            .vlist ((ensure_list ((lookupK classification
              "business_rules").getD (.vlist []))).map .str)),
         ("business_triggers",
            .vlist ((ensure_list ((lookupK classification
              "business_triggers").getD (.vlist []))).map .str)),
         ("business_data",
            .vlist ((ensure_list ((lookupK classification
              "business_data").getD (.vlist []))).map .str)),
         ("integration_points",
            .vlist ((ensure_list ((lookupK classification
              "integration_points").getD (.vlist []))).map .str)),
         ("business_workflow",
            .str (pyStr ((lookupK classification "business_workflow").getD
              (.str "Unknown")))),
         ("technical_pattern",
            .str (pyStr ((lookupK classification "technical_pattern").getD
              (.str "Unknown")))),
         ("confidence", .num (max 0 (min 1 q)))]

/-! ## src/shared/context_providers.py

The prompt templates below are the f-string bodies of
`BusinessContextProvider.build_prompt` (lines 19-63) and
`ConversationContextProvider._create_orchestrated_prompt` (lines 135-193),
split at their interpolation points. -/

/-- Module constant `MAX_CONTEXT_LENGTH` (src/shared/context_providers.py
line 6). It is defined in the source file but referenced nowhere in it. -/
def MAX_CONTEXT_LENGTH : Nat := 8000

/-- Template of `BusinessContextProvider.build_prompt` before
`{self.user_request}`. -/
def bcpSeg1 : String :=
  "You are a senior software architect working on a loyalty points microservice system. A developer has requested a new feature implementation.\n\n    DEVELOPER REQUEST:\n    \""

/-- Template between `{self.user_request}` and `{context_summary}`. -/
def bcpSeg2 : String :=
  "\"\n\n    RELEVANT EXISTING CODE CONTEXT:\n    "

/-- Template after `{context_summary}`. -/
def bcpSeg3 : String :=
  "\n\n    Based on the existing codebase patterns and architecture, provide specific implementation guidance. Return ONLY a valid JSON object with this structure:\n\n    \x7b\n        \"suggested_service\": \"Which service/project should implement this (e.g., LoyaltyPoints, LoyaltyPoints.Internal)\",\n        \"suggested_files\": [\n            \x7b\n                \"action\": \"create|modify|reference\",\n                \"file_path\": \"/specific/path/to/file.cs\",\n                \"purpose\": \"What this file does\"\n            \x7d\n        ],\n        \"implementation_steps\": [\n            \"Step 1: Specific action to take\",\n            \"Step 2: Next specific action\",\n            \"Step 3: etc.\"\n        ],\n        \"business_rationale\": \"Why this approach makes business sense based on existing patterns\",\n        \"integration_points\": [\n            \"Service A: How it integrates\",\n            \"Service B: How it integrates\"\n        ],\n        \"code_examples\": [\n            \x7b\n                \"file\": \"FileName.cs\",\n                \"code\": \"public class Example \x7b /* implementation */ \x7d\"\n            \x7d\n        ],\n        \"confidence_score\": 0.85\n    \x7d\n\n    Focus on:\n    1. Following existing architectural patterns from the context\n    2. Reusing existing business rule structures\n    3. Maintaining consistency with current integration approaches\n    4. Providing specific, actionable implementation steps\n\n    Return only the JSON object, no additional text."

/-- Embeds `BusinessContextProvider.build_prompt` (src/shared/context_providers.py
lines 13-65): the business-context summary of the RAG result is embedded
verbatim into the fixed template. -/
def BusinessContextProvider.build_prompt (user_request : String)
    (rag_data : RagQueryResult) : String :=
  let context_summary := rag_data.get_business_context
  bcpSeg1 ++ user_request ++ bcpSeg2 ++ context_summary ++ bcpSeg3

/-- Template of `_create_orchestrated_prompt` before `{self.user_request}`. -/
def orchSeg1 : String :=
  "You are a senior software architect implementing a new feature in a loyalty points microservice system.\n\nDEVELOPER REQUEST:\n\""

/-- Template between `{self.user_request}` and `{business_context}`. -/
def orchSeg2 : String :=
  "\"\n\nBUSINESS CONTEXT FROM EXISTING CODEBASE:\n"

/-- Template between `{business_context}` and `{tools_description}`. -/
def orchSeg3 : String :=
  "\n\nAVAILABLE TOOLS:\n"

/-- Template after `{tools_description}`. -/
def orchSeg4 : String :=
  "\n\nIMPLEMENTATION APPROACH:\n1. First, analyze the business context above to understand existing patterns\n2. If you need to see specific code implementations, use get_code_by_filepath(file_path) tool to examine relevant files\n3. Generate specific implementation guidance following existing patterns\n\nTOOL USAGE INSTRUCTIONS:\n- Use get_code_by_filepath(file_path) when you need to:\n  * See interface definitions (e.g., ILoyaltyRule)\n  * Understand existing implementation patterns\n  * Check dependency injection patterns\n  * Examine configuration patterns\n- Call tools using this format: get_code_by_filepath(\"/path/to/file.cs\")\n\nBased on the existing codebase patterns and architecture AND examining necessary code files, provide specific implementation guidance. Return ONLY a valid JSON object with this structure:\n\n\x7b\n    \"analysis_performed\": [\n    \"List of files examined and why\",\n    \"Key patterns discovered\"\n    ],\n    \"suggested_service\": \"Which service/project should implement this (e.g., LoyaltyPoints, LoyaltyPoints.Internal)\",\n    \"suggested_files\": [\n        \x7b\n            \"action\": \"create|modify|reference\",\n            \"file_path\": \"/specific/path/to/file.cs\",\n            \"purpose\": \"What this file does\"\n        \x7d\n    ],\n    \"implementation_steps\": [\n        \"Step 1: Specific action to take\",\n        \"Step 2: Next specific action\",\n        \"Step 3: etc.\"\n    ],\n    \"business_rationale\": \"Why this approach makes business sense based on existing patterns\",\n    \"integration_points\": [\n        \"Service A: How it integrates\",\n        \"Service B: How it integrates\"\n    ],\n    \"code_examples\": [\n        \x7b\n            \"file\": \"FileName.cs\",\n            \"code\": \"public class Example \x7b /* implementation */ \x7d\"\n        \x7d\n    ],\n    \"confidence_score\": 0.85\n\x7d\n\nStart by examining the most relevant files to understand implementation patterns."

/-- The schema dict returned by `CodeRetrievalTool.get_tool_schema`
(src/shared/tool_agent.py lines 92-107), reduced to the parts
`_format_tools_for_prompt` reads: name, description, and the
`properties` map restricted to parameter name and type. -/
structure ToolSchema where
  name : String
  description : String
  param_names_types : List (String × String)
deriving DecidableEq, Repr

/-- Embeds `CodeRetrievalTool.get_tool_schema` for the registered tool. -/
def CodeRetrievalTool.get_tool_schema : ToolSchema :=
  { name := codeRetrievalToolName,
    description := "Retrieve current code content from a specific file path",
    param_names_types := [("file_path", "string")] }

/-- Embeds `ToolAgent.get_available_tools` (src/shared/tool_agent.py lines
124-126): the registry holds the single code-retrieval tool. -/
def ToolAgent.get_available_tools : List ToolSchema :=
  [CodeRetrievalTool.get_tool_schema]

/-- Embeds `ConversationContextProvider._format_tools_for_prompt`
(src/shared/context_providers.py lines 197-210); every schema carries a
`parameters` key, so the parameter line is always appended. -/
def format_tools_for_prompt (tools : List ToolSchema) : String :=
  joinWith "\n" (tools.map fun t =>
    "- " ++ t.name ++ ": " ++ t.description
      ++ "\n  Parameters: "
      ++ joinWith ", " (t.param_names_types.map fun kv =>
          kv.1 ++ " (" ++ kv.2 ++ ")"))

/-- Embeds `_create_orchestrated_prompt` (src/shared/context_providers.py
lines 126-195). Its first statement reads `self._tool_agent` (line 130);
the `tool_agent_attr` parameter carries the state of that attribute at call
time: `none` models the attribute not yet being bound — Python then raises
`AttributeError` on the read — and `some tools` models a bound agent whose
`get_available_tools()` returns `tools`. On success the single history
entry is returned. -/
def create_orchestrated_prompt (tool_agent_attr : Option (List ToolSchema))
    (user_request business_context : String) : Except PyError String :=
  match tool_agent_attr with
  | none => .error (.attributeError "ConversationContextProvider" "_tool_agent")
  | some available_tools =>
    .ok (orchSeg1 ++ user_request ++ orchSeg2 ++ business_context ++ orchSeg3
      ++ format_tools_for_prompt available_tools ++ orchSeg4)

/-- The mutable state of a `ConversationContextProvider`
(src/shared/context_providers.py lines 68-75): `_all_responses`,
`_conversation_history`, `_tool_responses`. -/
structure ConvState where
  all_responses : List ToolResult
  conversation_history : List String
  tool_responses : List ToolResult
deriving DecidableEq, Repr

/-- Embeds `ConversationContextProvider.__init__`
(src/shared/context_providers.py lines 69-75). Line 73 calls
`_create_orchestrated_prompt`, which reads `self._tool_agent`
(line 130) — but that attribute is only assigned at line 75, after the
call, and no parent class or class attribute defines it. The read of the
unbound attribute therefore raises `AttributeError` on every construction,
which the embedding models by passing `none` for the attribute state; the
`.ok` branch below is exactly lines 73-75 completing, and is unreachable. -/
def ConversationContextProvider.mkInit (user_request : String)
    (rag_data : RagQueryResult) : Except PyError ConvState :=
  match create_orchestrated_prompt none user_request
      rag_data.get_business_context with
  | .error e => .error e
  | .ok prompt =>
    .ok { all_responses := [],
          conversation_history := [prompt],
          tool_responses := [] }

/-- Embeds `add_llm_response` (src/shared/context_providers.py lines 103-104). -/
def ConversationContextProvider.add_llm_response (st : ConvState)
    (llm_response : String) : ConvState :=
  { st with conversation_history :=
      st.conversation_history ++ ["LLM Response: " ++ llm_response] }

/-- Embeds `add_tool_response` (src/shared/context_providers.py lines 106-108). -/
def ConversationContextProvider.add_tool_response (st : ConvState)
    (tool_response : ToolResult) : ConvState :=
  { st with all_responses := st.all_responses ++ [tool_response],
            tool_responses := st.tool_responses ++ [tool_response] }

/-- The per-result line of `_update_conversation_history`
(src/shared/context_providers.py lines 116-121): a `None` payload or a
failed result is summarized by name and error only. -/
def formatToolResponse (r : ToolResult) : String :=
  match r.result, r.success with
  | some pl, true =>
    "Retrieved " ++ pl.relative_path ++ " ("
      ++ toString (strLen pl.content) ++ " chars)"
  | _, _ => "Failed to retrieve: " ++ r.error.getD "None"

/-- Embeds `_update_conversation_history` (src/shared/context_providers.py lines
110-124): appends a semicolon-joined summary of the buffered tool results
to the history (the buffer is never cleared by the source). -/
def update_conversation_history (st : ConvState) : ConvState :=
  if st.tool_responses = [] then st
  else
    { st with conversation_history := st.conversation_history
        ++ ["Tool Results: "
            ++ joinWith "; " (st.tool_responses.map formatToolResponse)] }

/-- The `context_additions` lines built at src/shared/context_providers.py
lines 88-95: four lines per successful result that carries a payload (and
every produced payload has a `content` key), with content capped at 1000
characters. -/
def contextAdditions (latest_results : List ToolResult) : List String :=
  latest_results.flatMap fun r =>
    match r.result with
    | some pl =>
      ["Code from " ++ pl.relative_path ++ ":", "```csharp",
       strTake pl.content 1000, "```"]
    | none => []

/-- Embeds `ConversationContextProvider.build_prompt`
(src/shared/context_providers.py lines 77-101). It reads only entry 0 of
the conversation history; the pair returns the prompt together with the
state as mutated by `_update_conversation_history`. -/
def ConversationContextProvider.build_prompt (st : ConvState) :
    String × ConvState :=
  let st1 := update_conversation_history st
  let hist0 := st1.conversation_history.getD 0 ""
  if st1.conversation_history.length = 1 then (hist0, st1)
  else if st1.all_responses ≠ [] then
    let latest_results := lastN 3 (st1.all_responses.filter (fun r => r.success))
    let adds := contextAdditions latest_results
    if adds ≠ [] then
      (hist0 ++ "\n\nEXAMINED CODE:\n" ++ joinWith "\n" adds
        ++ "\n\nNow provide final JSON implementation guidance:", st1)
    else (hist0 ++ "\n\nProvide implementation guidance as JSON:", st1)
  else (hist0 ++ "\n\nProvide implementation guidance as JSON:", st1)

/-- One external interaction applied to a provider. -/
inductive ConvEvent where
  | llm (s : String)
  | tool (r : ToolResult)
  | build

/-- Apply one event to the provider state. -/
def applyEvent (st : ConvState) : ConvEvent → ConvState
  | .llm s => ConversationContextProvider.add_llm_response st s
  | .tool r => ConversationContextProvider.add_tool_response st r
  | .build => (ConversationContextProvider.build_prompt st).2

/-- Replay a sequence of interactions from a given state. -/
def runEvents (st : ConvState) (es : List ConvEvent) : ConvState :=
  es.foldl applyEvent st

/-! ## src/generation/generator_enhanced.py -/

/-- One tool invocation request extracted from a model response. -/
structure ToolCallReq where
  tool_name : String
  parameters : List (String × String)
deriving DecidableEq, Repr

/-- A generating-model response: its text together with the tool calls it
embeds. -/
structure LLMResp where
  text : String
  tool_calls : List ToolCallReq
deriving DecidableEq, Repr

/-- Modelled from the spec: `ToolAgent.parse_tool_calls_from_response` is
called at src/generation/generator_enhanced.py line 74 but defined nowhere
in the repository sources; the spec (section 4.5) says the response is
parsed for embedded tool invocation requests. It is modelled as returning
exactly the requests the response embeds. -/
def parse_tool_calls_from_response (r : LLMResp) : List ToolCallReq :=
  r.tool_calls

/-- The tool-execution loop of src/generation/generator_enhanced.py lines
82-92: execute each requested call in order and append every result to the
conversation. A `TypeError` raised by argument binding in
`ToolAgent.execute_tool` propagates. -/
def runToolCalls (fs : List FileEntry) (cwd : List String) (root : String) :
    ConvState → List ToolCallReq → Except PyError ConvState
  | st, [] => .ok st
  | st, tc :: rest =>
    match ToolAgent.execute_tool fs cwd root tc.tool_name tc.parameters with
    | .error e => .error e
    | .ok r =>
      runToolCalls fs cwd root
        (ConversationContextProvider.add_tool_response st r) rest

/-- The `self._max_tool_iterations` constant
(src/generation/generator_enhanced.py line 21). -/
def max_tool_iterations : Nat := 3

/-- The iteration loop of `_execute_llm_with_tools`
(src/generation/generator_enhanced.py lines 64-98), taken as a function of
a provider state (in the source the loop is only reached if the provider
construction at line 62 succeeds, which it never does — see
`ConversationContextProvider.mkInit`). The generating model is a stub
`llm prompt callIndex`; `fetch_answer` builds the prompt from the provider
state. Fuel `0` is the loop running out of iterations, and the `none` case
is the `break` at line 71: both fall through to line 96,
`final_prompt = current_prompt + ...`, where the name `current_prompt` is
not defined anywhere in the method or module, so CPython raises
`NameError` there — before the final `fetch_answer` at line 97 can run.
The returned `Nat` counts the model calls performed. -/
def orchLoop (llm : String → Nat → Option LLMResp) (fs : List FileEntry)
    (cwd : List String) (root : String) :
    Nat → ConvState → Nat → (Except PyError LLMResp) × Nat
  | 0, _, calls => (.error (.nameError "current_prompt"), calls)
  | n + 1, st, calls =>
    let pr := ConversationContextProvider.build_prompt st
    match llm pr.1 calls with
    | none => (.error (.nameError "current_prompt"), calls + 1)
    | some r =>
      let st2 := ConversationContextProvider.add_llm_response pr.2 r.text
      match parse_tool_calls_from_response r with
      | [] => (.ok r, calls + 1)
      | tc :: tcs =>
        match runToolCalls fs cwd root st2 (tc :: tcs) with
        | .error e => (.error e, calls + 1)
        | .ok st3 => orchLoop llm fs cwd root n st3 (calls + 1)

/-- Embeds `EnhancedCodeSenseGenerator._execute_llm_with_tools`
(src/generation/generator_enhanced.py lines 60-98). Line 62 constructs the
`ConversationContextProvider`; an exception raised there propagates out of
the method before the loop starts and before any model call is made, so
that case carries call count `0`. -/
def execute_llm_with_tools (llm : String → Nat → Option LLMResp)
    (fs : List FileEntry) (cwd : List String) (root : String)
    (user_request : String) (rag_query_result : RagQueryResult) :
    (Except PyError LLMResp) × Nat :=
  match ConversationContextProvider.mkInit user_request rag_query_result with
  | .error e => (.error e, 0)
  | .ok business_context =>
    orchLoop llm fs cwd root max_tool_iterations business_context 0

/-! ## Shared helper lemmas -/

/-- Character length distributes over string concatenation. -/
theorem strLen_append (a b : String) : strLen (a ++ b) = strLen a + strLen b := by
  cases a with
  | mk l =>
    cases b with
    | mk m => simp [strLen]

/-- Head read of a list extended on the right. -/
theorem getD_zero_append (l : List String) (x : List String) (h : l ≠ []) :
    (l ++ x).getD 0 "" = l.getD 0 "" := by
  cases l with
  | nil => exact absurd rfl h
  | cons y ys => simp

/-- Equal lengths transport nonemptiness. -/
theorem hist_ne_nil {l m : List String} (hlen : l.length = m.length)
    (hl : l ≠ []) : m ≠ [] := by
  intro hm
  rw [hm] at hlen
  simp at hlen
  exact hl hlen

/-- The state returned by `build_prompt` is the updated state in every
branch. -/
theorem build_prompt_snd (st : ConvState) :
    (ConversationContextProvider.build_prompt st).2 =
      update_conversation_history st := by
  simp only [ConversationContextProvider.build_prompt]
  split
  · rfl
  · split
    · split <;> rfl
    · rfl

/-- Updating the history leaves `_all_responses` untouched. -/
theorem update_all_responses (st : ConvState) :
    (update_conversation_history st).all_responses = st.all_responses := by
  unfold update_conversation_history
  split <;> rfl

/-- Updating the history leaves `_tool_responses` untouched. -/
theorem update_tool_responses (st : ConvState) :
    (update_conversation_history st).tool_responses = st.tool_responses := by
  unfold update_conversation_history
  split <;> rfl

/-- Updating the history only appends entries. -/
theorem update_history (st : ConvState) :
    ∃ t, (update_conversation_history st).conversation_history =
      st.conversation_history ++ t := by
  unfold update_conversation_history
  split
  · exact ⟨[], by simp⟩
  · exact ⟨_, rfl⟩

/-- The tool results recorded by a sequence of interactions. -/
def toolEventsOf (es : List ConvEvent) : List ToolResult :=
  es.filterMap fun e => match e with | .tool r => some r | _ => none

/-- Rewrite the text of every recorded model response. -/
def rewriteLlm (f : String → String) : ConvEvent → ConvEvent
  | .llm s => .llm (f s)
  | e => e

/-- Effect of one event on `_all_responses`. -/
theorem applyEvent_all_responses (st : ConvState) (e : ConvEvent) :
    (applyEvent st e).all_responses =
      st.all_responses ++ (match e with | .tool r => [r] | _ => []) := by
  cases e
  · simp [applyEvent, ConversationContextProvider.add_llm_response]
  · simp [applyEvent, ConversationContextProvider.add_tool_response]
  · simp [applyEvent, build_prompt_snd, update_all_responses]

/-- One event only appends to the conversation history. -/
theorem applyEvent_history (st : ConvState) (e : ConvEvent) :
    ∃ t, (applyEvent st e).conversation_history =
      st.conversation_history ++ t := by
  cases e
  · exact ⟨_, rfl⟩
  · exact ⟨[], by simp [applyEvent, ConversationContextProvider.add_tool_response]⟩
  · rw [applyEvent, build_prompt_snd]
    exact update_history st

/-- After any interaction sequence, `_all_responses` is exactly the list of
recorded tool results. -/
theorem runEvents_all_responses (es : List ConvEvent) : ∀ st : ConvState,
    (runEvents st es).all_responses = st.all_responses ++ toolEventsOf es := by
  induction es with
  | nil => intro st; simp [runEvents, toolEventsOf]
  | cons e es ih =>
    intro st
    show (runEvents (applyEvent st e) es).all_responses = _
    rw [ih (applyEvent st e), applyEvent_all_responses]
    cases e <;> simp [toolEventsOf]

/-- Interactions only ever append to the conversation history. -/
theorem runEvents_history (es : List ConvEvent) : ∀ st : ConvState,
    ∃ t, (runEvents st es).conversation_history =
      st.conversation_history ++ t := by
  induction es with
  | nil => intro st; exact ⟨[], by simp [runEvents]⟩
  | cons e es ih =>
    intro st
    obtain ⟨t1, h1⟩ := applyEvent_history st e
    obtain ⟨t2, h2⟩ := ih (applyEvent st e)
    exact ⟨t1 ++ t2, by simp [runEvents] at h2 ⊢; rw [h2, h1, List.append_assoc]⟩

/-- Every prompt built from a state whose history starts with `orch` has one
of the three source shapes. -/
theorem build_prompt_shape (st : ConvState) (orch : String) (t : List String)
    (hh : st.conversation_history = orch :: t) :
    (ConversationContextProvider.build_prompt st).1 = orch ∨
    (ConversationContextProvider.build_prompt st).1 =
      orch ++ "\n\nProvide implementation guidance as JSON:" ∨
    (ConversationContextProvider.build_prompt st).1 =
      orch ++ "\n\nEXAMINED CODE:\n"
        ++ joinWith "\n" (contextAdditions
            (lastN 3 (st.all_responses.filter (fun r => r.success))))
        ++ "\n\nNow provide final JSON implementation guidance:" := by
  have hall : (update_conversation_history st).all_responses =
    st.all_responses := update_all_responses st
  have hh1 : ∃ t', (update_conversation_history st).conversation_history =
      orch :: t' := by
    obtain ⟨u, hu⟩ := update_history st
    exact ⟨t ++ u, by rw [hu, hh]; simp⟩
  obtain ⟨t', ht'⟩ := hh1
  simp only [ConversationContextProvider.build_prompt, hall, ht']
  split
  · left; simp
  · split
    · split
      · right; right; simp
      · right; left; simp
    · right; left; simp

/-- States that agree on responses, buffer, history length and history head
produce identical prompts; used to show model-response text never reaches a
prompt. -/
def convRel (a b : ConvState) : Prop :=
  a.all_responses = b.all_responses ∧
  a.tool_responses = b.tool_responses ∧
  a.conversation_history.length = b.conversation_history.length ∧
  a.conversation_history.getD 0 "" = b.conversation_history.getD 0 "" ∧
  a.conversation_history ≠ []

/-- History update preserves `convRel`. -/
theorem convRel_update {a b : ConvState} (h : convRel a b) :
    convRel (update_conversation_history a) (update_conversation_history b) := by
  obtain ⟨h1, h2, h3, h4, h5⟩ := h
  by_cases hc : b.tool_responses = []
  · have ea : update_conversation_history a = a := by
      unfold update_conversation_history
      rw [h2, if_pos hc]
    have eb : update_conversation_history b = b := by
      unfold update_conversation_history
      rw [if_pos hc]
    rw [ea, eb]
    exact ⟨h1, h2, h3, h4, h5⟩
  · have ha : a.tool_responses ≠ [] := by rw [h2]; exact hc
    have ea : update_conversation_history a =
        { a with conversation_history := a.conversation_history
            ++ ["Tool Results: "
                ++ joinWith "; " (a.tool_responses.map formatToolResponse)] } := by
      unfold update_conversation_history
      rw [if_neg ha]
    have eb : update_conversation_history b =
        { b with conversation_history := b.conversation_history
            ++ ["Tool Results: "
                ++ joinWith "; " (b.tool_responses.map formatToolResponse)] } := by
      unfold update_conversation_history
      rw [if_neg hc]
    rw [ea, eb]
    refine ⟨h1, h2, by simp [h3], ?_, by simp [h5]⟩
    show (a.conversation_history ++ _).getD 0 "" =
      (b.conversation_history ++ _).getD 0 ""
    rw [getD_zero_append _ _ h5, getD_zero_append _ _ (hist_ne_nil h3 h5), h4]

/-- Each interaction preserves `convRel`, with model-response text rewritten
arbitrarily on one side. -/
theorem convRel_apply {a b : ConvState} (f : String → String)
    (h : convRel a b) (e : ConvEvent) :
    convRel (applyEvent a e) (applyEvent b (rewriteLlm f e)) := by
  obtain ⟨h1, h2, h3, h4, h5⟩ := h
  cases e with
  | llm s =>
    refine ⟨h1, h2, ?_, ?_, ?_⟩
    · show (a.conversation_history ++ _).length =
        (b.conversation_history ++ _).length
      simp [h3]
    · show (a.conversation_history ++ _).getD 0 "" =
        (b.conversation_history ++ _).getD 0 ""
      rw [getD_zero_append _ _ h5, getD_zero_append _ _ (hist_ne_nil h3 h5), h4]
    · show (a.conversation_history ++ _) ≠ []
      simp
  | tool r => exact ⟨by simp [applyEvent, rewriteLlm,
      ConversationContextProvider.add_tool_response, h1], by simp [applyEvent,
      rewriteLlm, ConversationContextProvider.add_tool_response, h2], h3, h4, h5⟩
  | build =>
    show convRel (ConversationContextProvider.build_prompt a).2
      (ConversationContextProvider.build_prompt b).2
    rw [build_prompt_snd, build_prompt_snd]
    exact convRel_update ⟨h1, h2, h3, h4, h5⟩

/-- Replaying rewritten interactions preserves `convRel`. -/
theorem convRel_run (f : String → String) (es : List ConvEvent) :
    ∀ {a b : ConvState}, convRel a b →
      convRel (runEvents a es) (runEvents b (es.map (rewriteLlm f))) := by
  induction es with
  | nil => intro a b h; exact h
  | cons e es ih =>
    intro a b h
    show convRel (runEvents (applyEvent a e) es)
      (runEvents (applyEvent b (rewriteLlm f e)) (es.map (rewriteLlm f)))
    exact ih (convRel_apply f h e)

/-- Related states build the same prompt string. -/
theorem build_prompt_fst_congr {a b : ConvState} (h : convRel a b) :
    (ConversationContextProvider.build_prompt a).1 =
      (ConversationContextProvider.build_prompt b).1 := by
  obtain ⟨h1, h2, h3, h4, h5⟩ := convRel_update h
  simp only [ConversationContextProvider.build_prompt, h1, h3, h4]
  split
  · rfl
  · split
    · split
      · rfl
      · rfl
    · rfl

/-- Python slice `l[-n:]` keeps at most `n` elements. -/
theorem lastN_length_le (n : Nat) (l : List α) : (lastN n l).length ≤ n := by
  simp [lastN]
  omega

/-- Python slice `s[:n]` keeps at most `n` characters. -/
theorem strTake_le (s : String) (n : Nat) : strLen (strTake s n) ≤ n := by
  simp [strTake, strLen]

/-- Well-formed tool calls never raise at the argument-binding boundary, so
the tool-execution loop completes. -/
theorem runToolCalls_ok (fs : List FileEntry) (cwd : List String)
    (root : String) : ∀ (tcs : List ToolCallReq) (st : ConvState),
    (∀ tc ∈ tcs, ∃ v, tc.parameters = [("file_path", v)]) →
    ∃ st', runToolCalls fs cwd root st tcs = .ok st' := by
  intro tcs
  induction tcs with
  | nil => intro st _; exact ⟨st, rfl⟩
  | cons tc rest ih =>
    intro st h
    obtain ⟨v, hv⟩ := h tc (by simp)
    have hex : ∃ r, ToolAgent.execute_tool fs cwd root tc.tool_name
        tc.parameters = .ok r := by
      rw [hv]
      unfold ToolAgent.execute_tool
      split
      · exact ⟨_, rfl⟩
      · simp [kwLookup]
    obtain ⟨r, hr⟩ := hex
    simp only [runToolCalls, hr]
    exact ih _ (fun tc' hm => h tc' (List.mem_cons_of_mem _ hm))

/-- A model that always requests well-formed tool calls drives the loop to
the undefined `current_prompt` reference after exactly the remaining number
of model calls. This analyzes the loop of lines 64-98 in isolation, given a
provider state; in the source the loop is never entered, because the
provider construction at line 62 raises first. -/
theorem orchLoop_always_tools (llm : String → Nat → Option LLMResp)
    (fs : List FileEntry) (cwd : List String) (root : String)
    (h1 : ∀ p n, (llm p n).isSome = true)
    (h2 : ∀ p n r, llm p n = some r → r.tool_calls ≠ [])
    (h3 : ∀ p n r, llm p n = some r →
      ∀ tc ∈ r.tool_calls, ∃ v, tc.parameters = [("file_path", v)]) :
    ∀ (m : Nat) (st : ConvState) (calls : Nat),
      orchLoop llm fs cwd root m st calls =
        (.error (.nameError "current_prompt"), calls + m) := by
  intro m
  induction m with
  | zero => intro st calls; simp [orchLoop]
  | succ n ih =>
    intro st calls
    unfold orchLoop
    cases hl : llm (ConversationContextProvider.build_prompt st).1 calls with
    | none =>
      have := h1 (ConversationContextProvider.build_prompt st).1 calls
      rw [hl] at this
      simp at this
    | some r =>
      cases hc : parse_tool_calls_from_response r with
      | nil => exact absurd hc (h2 _ _ r hl)
      | cons tc tcs =>
        obtain ⟨st', hst'⟩ := runToolCalls_ok fs cwd root (tc :: tcs)
          (ConversationContextProvider.add_llm_response
            (ConversationContextProvider.build_prompt st).2 r.text)
          (by rw [← hc]; exact h3 _ _ r hl)
        simp only [hl, hc, hst']
        rw [ih st' (calls + 1)]
        have harith : calls + 1 + n = calls + (n + 1) := by omega
        rw [harith]

/-! ## Concrete instances used by the evaluations and witnesses -/

/-- The rational zero in reduced form, evaluable in the kernel. -/
def qZero : ℚ := Rat.mk' 0 1 one_ne_zero (by norm_num)

/-- An empty query slice (no matching documents). -/
def emptyChroma : ChromaResult :=
  { ids := [], documents := [], metadatas := [], distances := [] }

/-- A semantic match with no documents. -/
def sampleMatch : SemanticMatch :=
  { query := "add a loyalty rule", results := emptyChroma, filters := [],
    summary := { total_results := 0, avg_distance := qZero, files_found := [] } }

/-- A RAG result carrying the empty match. -/
def sampleRag : RagQueryResult :=
  { timestamp := "2024-01-01T00:00:00", matched := sampleMatch,
    user_query := "add a loyalty rule" }

/-- A file system holding a sensitive file outside the project root. -/
def c8fs : List FileEntry :=
  [{ parts := ["etc", "passwd"], content := "root:x:0:0:root:/root:/bin/bash",
     size_bytes := 31, mtime_iso := "2024-01-01T00:00:00" }]

/-- A metadata record whose business purpose alone is 8000 characters. -/
def c2purpose : String := String.mk (List.replicate 8000 'a')

/-- Document metadata driving the oversized business-context summary. -/
def c2md : DocMetadata :=
  { file_path := "", project_name := "", file_type := "",
    business_purpose := c2purpose, business_rules := "",
    business_triggers := "", business_data := "", integration_points := "",
    business_workflow := "", technical_pattern := "", llm_provider := "",
    classification_confidence := qZero, created_at := "" }

/-- A one-document semantic match with an oversized summary. -/
def c2match : SemanticMatch :=
  { query := "q",
    results := { ids := ["id0"], documents := ["d"], metadatas := [c2md],
                 distances := [qZero] },
    filters := [],
    summary := { total_results := 1, avg_distance := qZero, files_found := [""] } }

/-- The RAG result whose rendered summary exceeds the character budget. -/
def c2rag : RagQueryResult :=
  { timestamp := "T", matched := c2match, user_query := "q" }

/-- Length of the oversized business purpose. -/
theorem c2purpose_len : strLen c2purpose = 8000 :=
  List.length_replicate 8000 'a'

/-- The oversized summary rendered by `build_business_context_summary`,
exposed as an explicit part list. -/
theorem c2summary_parts : c2rag.get_business_context =
    joinWith "\n"
      ["\n--- Relevant File 0:  ---", "Project Name: ", "File Type: ",
       "Business Purpose: " ++ c2purpose, "Technical Pattern: ",
       "Business Workflow: ", "Business Triggers: ", "Business Data: ",
       "Semantic Distance: " ++ format4 qZero,
       "Confidence: " ++ floatRepr qZero, ""] := rfl

/-- The oversized summary has 8191 characters. -/
theorem c2summary_len : strLen c2rag.get_business_context = 8191 := by
  rw [c2summary_parts]
  have h4 : format4 qZero = "0.0000" := rfl
  have h5 : floatRepr qZero = "0.0" := rfl
  rw [h4, h5]
  simp only [joinWith, strLen_append, c2purpose_len]
  decide

/-- Truncation policy of `PromptBuilder._build_context_summary`
(src/llm_providers/utils/prompt_builders.py lines 94-97), the only place in
the repository where `MAX_CONTEXT_LENGTH` is applied: hard cut at the
budget with an explicit marker appended. -/
def truncateSummary (full_summary : String) : String :=
  if strLen full_summary > MAX_CONTEXT_LENGTH then
    strTake full_summary MAX_CONTEXT_LENGTH ++ "\n... [truncated]"
  else full_summary

/-- Length of the capped-and-marked segment the claim mandates. -/
theorem c2_trunc_len :
    strLen (truncateSummary c2rag.get_business_context) = 8016 := by
  unfold truncateSummary
  rw [if_pos (by rw [c2summary_len]; decide)]
  rw [strLen_append]
  have h1 : strLen (strTake c2rag.get_business_context MAX_CONTEXT_LENGTH)
      = 8000 := by
    have h2 : strLen (strTake c2rag.get_business_context MAX_CONTEXT_LENGTH)
        = min MAX_CONTEXT_LENGTH (strLen c2rag.get_business_context) := by
      simp [strTake, strLen]
    rw [h2, c2summary_len]
    decide
  rw [h1]
  decide

/-- The reduced rational 17/20, the confidence 0.85 of the C7 document. -/
def c7conf : ℚ := Rat.mk' 17 20 (by norm_num) (by norm_num)

/-- The reduced rational 617/5000, the distance 0.1234 of the C7 match. -/
def c7dist : ℚ := Rat.mk' 617 5000 (by norm_num) (by norm_num)

/-- A classification CSV row with pipe-separated rule and integration
lists. -/
def c7row : CsvRow :=
  { file_path := "/src/LoyaltyRules.cs", project_name := "LoyaltyPoints",
    file_type := "cs", business_purpose := "Loyalty rule evaluation",
    business_rules := "No negative balances | Max 3 redemptions | Expiry after 12 months",
    business_triggers := "", business_data := "",
    integration_points := "PaymentsApi | NotificationsApi",
    business_workflow := "Points accrual", technical_pattern := "Strategy",
    llm_provider := "test", classification_confidence := c7conf }

/-- The one-document semantic match built from the prepared C7 document. -/
def c7match : SemanticMatch :=
  { query := "loyalty rules",
    results :=
      { ids := ["id0"], documents := ["doc0"],
        metadatas := (prepare_documents_for_embedding [c7row] (fun _ => "id0")
          "2024-01-01T00:00:00").map (fun d => d.metadata),
        distances := [c7dist] },
    filters := [],
    summary := { total_results := 1, avg_distance := c7dist,
                 files_found := ["/src/LoyaltyRules.cs"] } }

/-- The rendered business-context summary of the C7 match. -/
def c7summary : String := c7match.build_business_context_summary

/-- A CSV row carrying an out-of-range confidence of 1.5. -/
def c9row : CsvRow :=
  { file_path := "/src/A.cs", project_name := "LoyaltyPoints",
    file_type := "cs", business_purpose := "p", business_rules := "",
    business_triggers := "", business_data := "", integration_points := "",
    business_workflow := "w", technical_pattern := "t",
    llm_provider := "test", classification_confidence := (3 / 2 : ℚ) }

/-- Dict update followed by lookup of the same key. -/
theorem lookupK_setK (d : List (String × PyVal)) (k : String) (v : PyVal) :
    lookupK (setK d k v) k = some v := by
  induction d with
  | nil => simp [setK, lookupK]
  | cons kv rest ih =>
    by_cases h : kv.1 = k
    · simp [setK, h, lookupK]
    · simp [setK, h, lookupK, ih]

/-- A normalized classification either raised while converting its
confidence or carries a clamped numeric confidence. -/
def confidenceClamped : Except PyError (List (String × PyVal)) → Prop
  | .error _ => True
  | .ok d => ∃ q : ℚ, lookupK d "confidence" = some (.num q) ∧ 0 ≤ q ∧ q ≤ 1

/-- Invariant claimed for every produced tool result. -/
def toolResultInvariant (r : ToolResult) : Prop :=
  (r.success = true → r.result.isSome = true ∧ r.error = none) ∧
  (r.success = false → r.error.isSome = true ∧ r.result = none)

/-- The invariant lifted over the possibility of a raised `TypeError`. -/
def toolResultInvariantE : Except PyError ToolResult → Prop
  | .ok r => toolResultInvariant r
  | .error _ => True

/-- Every result of `CodeRetrievalTool.execute` satisfies the invariant. -/
theorem execute_invariant (fs : List FileEntry) (cwd : List String)
    (root fp : String) :
    toolResultInvariant (CodeRetrievalTool.execute fs cwd root fp) := by
  simp only [CodeRetrievalTool.execute]
  split
  · simp [toolResultInvariant]
  · split
    · simp [toolResultInvariant]
    · split <;> simp [toolResultInvariant]

/-! ## Claim theorems -/

/-- C1: for every generating model — in particular one that requests tool
calls in every response — the orchestrated run makes zero model calls: the
provider construction at src/generation/generator_enhanced.py line 62
raises `AttributeError` (the read of the unbound `self._tool_agent` at
src/shared/context_providers.py line 130, reached from line 73 before the
assignment at line 75), so neither the iteration cap nor the forced final
call is ever exercised and no final response is returned. The iteration
loop itself, analyzed in isolation in `orchLoop_always_tools`, would also
break the claim: it reaches the `NameError` on the undefined
`current_prompt` at line 96 instead of a forced final call. -/
theorem orchestrator_run_raises_attribute_error
    (llm : String → Nat → Option LLMResp) (fs : List FileEntry)
    (cwd : List String) (root user_request : String) (rag : RagQueryResult) :
    execute_llm_with_tools llm fs cwd root user_request rag =
      (.error (.attributeError "ConversationContextProvider" "_tool_agent"),
       0) := rfl

/-- C2: `BusinessContextProvider.build_prompt` embeds the business-context
summary verbatim into its template, with no reference to the
8000-character budget: a summary of 8191 characters reaches the prompt
whole, while the capped-and-marked segment the claim mandates (the policy
that `PromptBuilder._build_context_summary` implements, `truncateSummary`
here) would have exactly 8016 characters. The conversational provider caps
nothing either, for a different reason: its construction always raises
`AttributeError`, so `ConversationContextProvider.build_prompt` never
produces any prompt in the source program. -/
theorem context_budget_truncation_absent :
    (∀ (user_request : String) (rag_data : RagQueryResult),
      BusinessContextProvider.build_prompt user_request rag_data =
        bcpSeg1 ++ user_request ++ bcpSeg2 ++ rag_data.get_business_context
          ++ bcpSeg3) ∧
    MAX_CONTEXT_LENGTH < strLen c2rag.get_business_context ∧
    strLen c2rag.get_business_context = 8191 ∧
    strLen (truncateSummary c2rag.get_business_context) = 8016 ∧
    (∀ (user_request : String) (rag_data : RagQueryResult),
      ConversationContextProvider.mkInit user_request rag_data =
        .error (.attributeError "ConversationContextProvider" "_tool_agent")) :=
  ⟨fun _ _ => rfl, by rw [c2summary_len]; decide, c2summary_len, c2_trunc_len,
   fun _ _ => rfl⟩

/-- C3: whenever the canonicalized full path fails the containment check
against the canonicalized project root, `CodeRetrievalTool.execute` returns
the security failure result: success false, no payload (so no file content),
and the specific error message — no exception escapes. -/
theorem code_retrieval_rejects_escaping_path (fs : List FileEntry)
    (cwd : List String) (project_root file_path : String)
    (h : (pathResolve cwd (parsePath project_root)).isPrefixOf
      (pathResolve cwd (CodeRetrievalTool.fullPathOf project_root file_path))
      = false) :
    CodeRetrievalTool.execute fs cwd project_root file_path =
      { tool_name := codeRetrievalToolName, success := false, result := none,
        error := some ("Path " ++ file_path
          ++ " is outside project root for security") } := by
  simp [CodeRetrievalTool.execute, h]

/-- Witness for C3: `/etc/passwd` under project root `/project`, with the
file present in the modelled file system. -/
theorem code_retrieval_rejects_escaping_path_witness :
    (pathResolve [] (parsePath "/project")).isPrefixOf
      (pathResolve [] (CodeRetrievalTool.fullPathOf "/project" "/etc/passwd"))
      = false ∧
    CodeRetrievalTool.execute c8fs [] "/project" "/etc/passwd" =
      { tool_name := codeRetrievalToolName, success := false, result := none,
        error := some ("Path " ++ "/etc/passwd"
          ++ " is outside project root for security") } :=
  ⟨by decide,
   code_retrieval_rejects_escaping_path c8fs [] "/project" "/etc/passwd"
     (by decide)⟩

/-- C4 counterexample: calling the registered tool with the required
`file_path` parameter missing does not produce a failure `ToolResult`; the
argument binding at src/shared/tool_agent.py line 138 raises a `TypeError`
that propagates past `execute_tool`, so the claim that no tool misuse lets
an exception escape is false. -/
theorem tool_missing_param_raises :
    ToolAgent.execute_tool [] [] "/project" "get_code_by_filepath" [] =
      .error (.typeError
        "execute() missing 1 required positional argument: file_path") := rfl

/-- C4 (amended): for tool misuse by unknown tool name, by a path escaping
the project root, or by a nonexistent file, `ToolAgent.execute_tool`
returns a `ToolResult` with success false and a specific error string and
raises nothing; only parameter-binding misuse raises. -/
theorem tool_misuse_failure_results (fs : List FileEntry)
    (cwd : List String) (root tname fp : String)
    (kwargs : List (String × String)) :
    (tname ≠ codeRetrievalToolName →
      ToolAgent.execute_tool fs cwd root tname kwargs =
        .ok { tool_name := tname, success := false, result := none,
              error := some ("Unknown tool: " ++ tname) }) ∧
    ((pathResolve cwd (parsePath root)).isPrefixOf
        (pathResolve cwd (CodeRetrievalTool.fullPathOf root fp)) = false →
      ToolAgent.execute_tool fs cwd root codeRetrievalToolName
          [("file_path", fp)] =
        .ok { tool_name := codeRetrievalToolName, success := false,
              result := none,
              error := some ("Path " ++ fp
                ++ " is outside project root for security") }) ∧
    ((pathResolve cwd (parsePath root)).isPrefixOf
        (pathResolve cwd (CodeRetrievalTool.fullPathOf root fp)) = true →
      fsLookup fs (pathResolve cwd (CodeRetrievalTool.fullPathOf root fp))
        = none →
      ToolAgent.execute_tool fs cwd root codeRetrievalToolName
          [("file_path", fp)] =
        .ok { tool_name := codeRetrievalToolName, success := false,
              result := none,
              error := some ("File not found: " ++ fp) }) := by
  refine ⟨fun h => ?_, fun h => ?_, fun hin hfs => ?_⟩
  · simp [ToolAgent.execute_tool, h]
  · simp [ToolAgent.execute_tool, kwLookup, CodeRetrievalTool.execute, h]
  · simp [ToolAgent.execute_tool, kwLookup, CodeRetrievalTool.execute,
      hin, hfs]

/-- Witness for C4: an unknown tool, an escaping path, and a missing file,
each at concrete inputs. -/
theorem tool_misuse_failure_results_witness :
    ToolAgent.execute_tool [] [] "/project" "rm_rf" [] =
      .ok { tool_name := "rm_rf", success := false, result := none,
            error := some ("Unknown tool: " ++ "rm_rf") } ∧
    ToolAgent.execute_tool c8fs [] "/project" codeRetrievalToolName
        [("file_path", "/etc/passwd")] =
      .ok { tool_name := codeRetrievalToolName, success := false,
            result := none,
            error := some ("Path " ++ "/etc/passwd"
              ++ " is outside project root for security") } ∧
    ToolAgent.execute_tool [] [] "/project" codeRetrievalToolName
        [("file_path", "Missing.cs")] =
      .ok { tool_name := codeRetrievalToolName, success := false,
            result := none,
            error := some ("File not found: " ++ "Missing.cs") } :=
  ⟨(tool_misuse_failure_results [] [] "/project" "rm_rf" "x" []).1
     (by decide),
   (tool_misuse_failure_results c8fs [] "/project" "t" "/etc/passwd" []).2.1
     (by decide),
   (tool_misuse_failure_results [] [] "/project" "t" "Missing.cs" []).2.2
     (by decide) (by decide)⟩

/-- C5: every `ToolResult` produced by `CodeRetrievalTool.execute`, and
every one produced by `ToolAgent.execute_tool` when it returns instead of
raising, satisfies the invariant: success implies a present payload and a
null error, failure implies a present error and a null payload. -/
theorem tool_result_invariant_holds (fs : List FileEntry)
    (cwd : List String) (root fp tname : String)
    (kwargs : List (String × String)) :
    toolResultInvariant (CodeRetrievalTool.execute fs cwd root fp) ∧
    toolResultInvariantE (ToolAgent.execute_tool fs cwd root tname kwargs) := by
  refine ⟨execute_invariant fs cwd root fp, ?_⟩
  simp only [ToolAgent.execute_tool]
  split
  · simp [toolResultInvariantE, toolResultInvariant]
  · split
    · simp [toolResultInvariantE]
    · split
      · simp [toolResultInvariantE]
      · exact execute_invariant fs cwd root _

/-- Witness for C5: the invariant at concrete inputs covering a success, a
security failure, and an unknown tool. -/
theorem tool_result_invariant_holds_witness :
    (toolResultInvariant (CodeRetrievalTool.execute c8fs [] "/project"
      "/etc/passwd") ∧
     toolResultInvariantE (ToolAgent.execute_tool c8fs [] "/project"
      "rm_rf" [])) ∧
    (toolResultInvariant (CodeRetrievalTool.execute c8fs [] "/etc" "passwd") ∧
     toolResultInvariantE (ToolAgent.execute_tool c8fs [] "/etc"
      "get_code_by_filepath" [("file_path", "passwd")])) :=
  ⟨tool_result_invariant_holds c8fs [] "/project" "/etc/passwd" "rm_rf" [],
   tool_result_invariant_holds c8fs [] "/etc" "passwd" "get_code_by_filepath"
     [("file_path", "passwd")]⟩

/-- C6: the metadata-filtered retrieval policy cannot return a timestamped
result at all: `VectorCollection` defines no method named
`filtered_semantic_search`, so `FilteredContentRag.retrieve_relevant_context`
raises `AttributeError` on every request instead of searching; the filtered
search that does exist, `filtered_retrieval`, returns the empty marker with
`total_results = 0` and no error when the filter excludes everything. -/
theorem filtered_rag_attribute_error :
    vectorCollectionMethods.contains "filtered_semantic_search" = false ∧
    FilteredContentRag.retrieve_relevant_context [("file_type", "cs")]
      "add a loyalty rule" =
      .error (.attributeError "VectorCollection" "filtered_semantic_search") ∧
    VectorCollection.filtered_retrieval emptyChroma
      "add a loyalty rule" [("file_type", "cs")] =
      { query := "add a loyalty rule", filters := [("file_type", "cs")],
        results := [],
        summary := { total_results := 0,
                     message := some "No results found with filters" } } :=
  ⟨by decide, rfl, by rfl⟩

/-- C7: the business-rules and integration-points metadata reaching
`build_business_context_summary` are the pipe-separated strings stored by
`prepare_documents_for_embedding`, so the `[:3]` slice takes the first
three characters, not the first three entries: the rendered summary
contains the comma-joined characters and none of the actual rule or
integration entries, alongside the formatted distance and confidence. -/
theorem business_rules_sliced_as_characters :
    (prepare_documents_for_embedding [c7row] (fun _ => "id0")
        "2024-01-01T00:00:00").map (fun d => d.metadata.business_rules) =
      ["No negative balances | Max 3 redemptions | Expiry after 12 months"] ∧
    strHasSub c7summary "Business Rules: N, o,  " = true ∧
    strHasSub c7summary "Integration Points: P, a, y" = true ∧
    strHasSub c7summary "No negative balances" = false ∧
    strHasSub c7summary "Max 3 redemptions" = false ∧
    strHasSub c7summary "PaymentsApi" = false ∧
    strHasSub c7summary "Semantic Distance: 0.1234" = true ∧
    strHasSub c7summary "Confidence: 0.85" = true :=
  ⟨rfl, rfl, rfl, rfl, rfl, rfl, rfl, rfl⟩

/-- C8: no orchestrated run ever reaches the claimed next prompt: the
provider construction raises `AttributeError` for every request, so
`ConversationContextProvider.build_prompt` is never invoked by the source
program; the Tool Agent half of the scenario is real (the `/etc/passwd`
request under root `/project` is rejected with the security error and no
payload); and the `build_prompt` method itself, taken on any provider
state with no prior responses, builds the first history entry plus the
fixed JSON directive — the `Failed to retrieve` summary is appended only
to the internal history, which `build_prompt` never reads beyond entry 0,
so the failure text could not reach a prompt even then. -/
theorem tool_failure_text_never_in_prompt :
    (∀ (user_request : String) (rag_data : RagQueryResult),
      ConversationContextProvider.mkInit user_request rag_data =
        .error (.attributeError "ConversationContextProvider" "_tool_agent")) ∧
    CodeRetrievalTool.execute c8fs [] "/project" "/etc/passwd" =
      { tool_name := codeRetrievalToolName, success := false, result := none,
        error := some "Path /etc/passwd is outside project root for security" } ∧
    (∀ (st : ConvState) (p0 : String) (t0 : List String) (tr : ToolResult),
      st.conversation_history = p0 :: t0 → st.all_responses = [] →
      tr.success = false → tr.result = none →
      (ConversationContextProvider.build_prompt
          (ConversationContextProvider.add_tool_response st tr)).1 =
        p0 ++ "\n\nProvide implementation guidance as JSON:" ∧
      (ConversationContextProvider.build_prompt
          (ConversationContextProvider.add_tool_response st tr)).2.conversation_history =
        (p0 :: t0) ++ ["Tool Results: "
          ++ joinWith "; " ((st.tool_responses ++ [tr]).map
              formatToolResponse)]) := by
  refine ⟨fun _ _ => rfl, by decide, ?_⟩
  intro st p0 t0 tr hh hall hfail hres
  constructor
  · simp [ConversationContextProvider.build_prompt,
      ConversationContextProvider.add_tool_response,
      update_conversation_history, formatToolResponse, hh, hall, hfail, hres,
      lastN, contextAdditions, joinWith]
  · simp [ConversationContextProvider.build_prompt,
      ConversationContextProvider.add_tool_response,
      update_conversation_history, formatToolResponse, hh, hall, hfail, hres,
      lastN, contextAdditions, joinWith]

/-- A provider state used to exercise the method-level part of the C8
theorem at concrete inputs; the source program itself can construct no
provider state, as the first conjunct of the theorem shows. -/
def c8state : ConvState :=
  { all_responses := [], conversation_history := ["INIT"],
    tool_responses := [] }

/-- Witness for C8: the `/etc/passwd` scenario under project root
`/project`: construction raises, the tool fails closed, and the method on
a concrete state drops the failure text. -/
theorem tool_failure_text_never_in_prompt_witness :
    ConversationContextProvider.mkInit "add a loyalty rule" sampleRag =
      .error (.attributeError "ConversationContextProvider" "_tool_agent") ∧
    (CodeRetrievalTool.execute c8fs [] "/project" "/etc/passwd").success
      = false ∧
    (CodeRetrievalTool.execute c8fs [] "/project" "/etc/passwd").error =
      some "Path /etc/passwd is outside project root for security" ∧
    (ConversationContextProvider.build_prompt
        (ConversationContextProvider.add_tool_response c8state
          (CodeRetrievalTool.execute c8fs [] "/project" "/etc/passwd"))).1 =
      "INIT" ++ "\n\nProvide implementation guidance as JSON:" :=
  ⟨tool_failure_text_never_in_prompt.1 "add a loyalty rule" sampleRag,
   by decide, by decide,
   (tool_failure_text_never_in_prompt.2.2 c8state "INIT" []
     (CodeRetrievalTool.execute c8fs [] "/project" "/etc/passwd")
     rfl rfl (by decide) (by decide)).1⟩

/-- C9 counterexample: `prepare_documents_for_embedding` stores the CSV
confidence unchanged, so a row with confidence 1.5 is embedded with a
stored confidence above 1.0 — the claimed clamping does not happen on this
ingestion path. -/
theorem confidence_unclamped_in_prepare :
    (prepare_documents_for_embedding [c9row] (fun _ => "id0") "T").map
      (fun d => d.metadata.classification_confidence) = [(3 / 2 : ℚ)] ∧
    (1 : ℚ) < 3 / 2 :=
  ⟨rfl, by norm_num⟩

/-- C9 (amended): the confidences of recommendation answers
(`get_validated_answer`) and classification responses
(`normalize_classification_response`) are clamped into `[0,1]`, while the
confidence of a CSV row prepared for embedding passes through
`float(...)` unclamped. -/
theorem confidence_clamped_amended :
    (∀ implementation : List (String × PyVal), ∃ q : ℚ,
      lookupK (get_validated_answer implementation) "confidence_score" =
        some (.num q) ∧ 0 ≤ q ∧ q ≤ 1) ∧
    (∀ classification : List (String × PyVal),
      confidenceClamped (normalize_classification_response classification)) ∧
    (∀ (rows : List CsvRow) (ids : Nat → String) (now : String),
      (prepare_documents_for_embedding rows ids now).map
        (fun d => d.metadata.classification_confidence) =
      rows.map (fun r => r.classification_confidence)) := by
  refine ⟨?_, ?_, ?_⟩
  · intro implementation
    simp only [get_validated_answer]
    split
    · rw [lookupK_setK]
      exact ⟨_, rfl, le_max_left 0 _, max_le zero_le_one (min_le_left 1 _)⟩
    · rw [lookupK_setK]
      exact ⟨0, rfl, le_refl 0, zero_le_one⟩
  · intro classification
    unfold normalize_classification_response
    cases hp : pyFloat ((lookupK classification "confidence").getD
        (.num (1 / 2))) with
    | error e => trivial
    | ok q =>
      exact ⟨max 0 (min 1 q), rfl, le_max_left 0 _,
        max_le zero_le_one (min_le_left 1 q)⟩
  · intro rows ids now
    simp only [prepare_documents_for_embedding, List.map_map]
    rw [show (rows.map fun r => r.classification_confidence) =
      (rows.enum.map Prod.snd).map (fun r => r.classification_confidence) by
        rw [List.enum_map_snd], List.map_map]
    rfl

/-- C10: for every provider state — the source program can construct none,
as the final conjunct shows, so every state the program could ever hold is
covered a fortiori — and after any sequence of recorded model responses,
tool results, and prompt builds, the next built prompt is the first
conversation-history entry (the initial orchestrated prompt, in the intended
use), optionally extended by either the fixed JSON directive or an
examined-code section derived from at most the 3 most recent successful
tool results (content capped at 1000 characters) plus the closing
directive; rewriting the text of every recorded model response never
changes any built prompt. -/
theorem conversation_prompt_shape (st0 : ConvState) (p0 : String)
    (t0 : List String) (hh : st0.conversation_history = p0 :: t0)
    (es : List ConvEvent) :
    ((ConversationContextProvider.build_prompt (runEvents st0 es)).1 = p0 ∨
     (ConversationContextProvider.build_prompt (runEvents st0 es)).1 =
        p0 ++ "\n\nProvide implementation guidance as JSON:" ∨
     (ConversationContextProvider.build_prompt (runEvents st0 es)).1 =
        p0 ++ "\n\nEXAMINED CODE:\n"
          ++ joinWith "\n" (contextAdditions
              (lastN 3 ((st0.all_responses ++ toolEventsOf es).filter
                (fun r => r.success))))
          ++ "\n\nNow provide final JSON implementation guidance:") ∧
    (lastN 3 ((st0.all_responses ++ toolEventsOf es).filter
      (fun r => r.success))).length ≤ 3 ∧
    (∀ s : String, strLen (strTake s 1000) ≤ 1000) ∧
    (∀ f : String → String,
      (ConversationContextProvider.build_prompt
        (runEvents st0 (es.map (rewriteLlm f)))).1 =
      (ConversationContextProvider.build_prompt (runEvents st0 es)).1) ∧
    (∀ (user_request : String) (rag_data : RagQueryResult),
      ConversationContextProvider.mkInit user_request rag_data =
        .error (.attributeError "ConversationContextProvider" "_tool_agent")) := by
  refine ⟨?_, lastN_length_le 3 _, fun s => strTake_le s 1000, fun f => ?_,
    fun _ _ => rfl⟩
  · have hall : (runEvents st0 es).all_responses =
        st0.all_responses ++ toolEventsOf es := runEvents_all_responses es st0
    obtain ⟨t, ht⟩ := runEvents_history es st0
    have ht' : (runEvents st0 es).conversation_history = p0 :: (t0 ++ t) := by
      rw [ht, hh]
      simp
    have hs := build_prompt_shape _ _ _ ht'
    rw [hall] at hs
    exact hs
  · have hrel : convRel st0 st0 :=
      ⟨rfl, rfl, rfl, rfl, by rw [hh]; simp⟩
    exact (build_prompt_fst_congr (convRel_run f es hrel)).symm

/-- Witness for C10: the shape facts at a concrete provider state and a
concrete interaction sequence. -/
theorem conversation_prompt_shape_witness :
    ((ConversationContextProvider.build_prompt (runEvents c8state [])).1 =
        "INIT" ∨
     (ConversationContextProvider.build_prompt (runEvents c8state [])).1 =
        "INIT" ++ "\n\nProvide implementation guidance as JSON:" ∨
     (ConversationContextProvider.build_prompt (runEvents c8state [])).1 =
        "INIT" ++ "\n\nEXAMINED CODE:\n"
          ++ joinWith "\n" (contextAdditions
              (lastN 3 ((c8state.all_responses ++ toolEventsOf []).filter
                (fun r => r.success))))
          ++ "\n\nNow provide final JSON implementation guidance:") ∧
    (lastN 3 ((c8state.all_responses ++ toolEventsOf []).filter
      (fun r => r.success))).length ≤ 3 ∧
    (∀ s : String, strLen (strTake s 1000) ≤ 1000) ∧
    (∀ f : String → String,
      (ConversationContextProvider.build_prompt
        (runEvents c8state ([].map (rewriteLlm f)))).1 =
      (ConversationContextProvider.build_prompt (runEvents c8state [])).1) ∧
    (∀ (user_request : String) (rag_data : RagQueryResult),
      ConversationContextProvider.mkInit user_request rag_data =
        .error (.attributeError "ConversationContextProvider" "_tool_agent")) :=
  conversation_prompt_shape c8state "INIT" [] rfl []
